import Mathlib

/-!
Verification of the changcafe_bot order-intake and fulfillment core.

This file gives a shallow embedding, in Lean 4, of the persistent data model
(`infrastructure/database/models.py`), the repository layer
(`infrastructure/database/repositories.py`), the order/user services
(`app/bot/services/orders.py`, `app/bot/services/user_service.py`), the Tilda
webhook pipeline (`app/api/webhooks/tilda.py`) and the relevant chat handlers
(`app/bot/handlers/client.py`), together with theorems settling the spec's
claims about them.

Modelling conventions:
- the SQLAlchemy store is a pure value `Db` holding the `users` and `orders`
  tables as lists; an UPDATE..WHERE statement is a `List.map` that rewrites
  the matching rows; SELECT..WHERE first() is `List.find?`;
- SQL DECIMAL / Python float values are `ℚ`, machine integers are `Nat`/`ℤ`;
- `datetime.utcnow()` is an explicit `now : Nat` argument;
- `random.randint` is an explicit `seed : Nat` argument fed to `randint`;
- HMAC-SHA256 is an explicit function argument `mac : String → String → String`
  (the development never depends on its definition);
  `hmac.compare_digest` compares equal exactly when its two strings are equal,
  which is how it is modelled (its timing behaviour has no observable
  counterpart in a functional embedding);
- fallible Python code (raised exceptions) returns `Except` or an explicit
  error result.
-/

/-- Status enum of `infrastructure/database/models.py` (`OrderStatus`). -/
inductive OrderStatus where
  | NEW
  | AWAITING_CONFIRMATION
  | WAITING_OPERATOR
  | AWAITING_PAYMENT
  | PAID
  | IN_DELIVERY
  | COMPLETED
  | CANCELLED
deriving DecidableEq, Repr

/-- Role enum of `infrastructure/database/models.py` (`UserRole`). -/
inductive UserRole where
  | CLIENT
  | OPERATOR
deriving DecidableEq, Repr

/-- A row of the `users` table (`models.User`).  `user_id` is the primary-key
column that holds the Telegram identity for chat-created users; timestamps and
the `last_name` column are plumbing not referenced by any verified operation
and are omitted. -/
structure User where
  user_id : Nat
  username : Option String := none
  first_name : String := ""
  phone : Option String := none
  email : Option String := none
  role : UserRole := .CLIENT
deriving DecidableEq, Repr

/-- One parsed line item as built by the webhook handler
(`app/api/webhooks/tilda.py`, the `items.append({...})` dict). -/
structure Item where
  title : String
  price : ℚ
  quantity : ℤ
  sku : Option String := none
deriving DecidableEq, Repr

/-- A row of the `orders` table (`models.Order`).  The audit timestamps and
`delivery_address`/`delivery_cost`/`total_amount` columns are never written by
the operations under verification and are omitted. -/
structure Order where
  id : Nat
  external_order_id : String
  user_id : Option Nat := none
  tilda_name : String := ""
  tilda_phone : String := ""
  address : String := ""
  items : List Item := []
  base_amount : ℚ := 0
  confirmed_phone : Option String := none
  payment_link : Option String := none
  tracking_link : Option String := none
  status : OrderStatus := .NEW
  assigned_to : Option Nat := none
  assigned_at : Option Nat := none
deriving DecidableEq, Repr

/-- The persistent store: the two tables touched by the verified operations. -/
structure Db where
  users : List User := []
  orders : List Order := []
deriving DecidableEq, Repr

/-- `UserRepository.get_by_phone`: `SELECT * FROM users WHERE phone = ?`,
first row. -/
def findUserByPhone (db : Db) (phone : String) : Option User :=
  db.users.find? (fun u => u.phone == some phone)

/-- `UserRepository.get_by_id`: `SELECT * FROM users WHERE user_id = ?`. -/
def findUserById (db : Db) (uid : Nat) : Option User :=
  db.users.find? (fun u => u.user_id == uid)

/-- `OrderRepository.get_by_external_id`:
`SELECT * FROM orders WHERE external_order_id = ?`, first row. -/
def findOrderByExternalId (db : Db) (ext : String) : Option Order :=
  db.orders.find? (fun o => o.external_order_id == ext)

/-- `OrderRepository.get_by_id` (and `get_by_id_with_relations`, whose eager
loading is invisible in a value model): `SELECT * FROM orders WHERE id = ?`. -/
def findOrderById (db : Db) (oid : Nat) : Option Order :=
  db.orders.find? (fun o => o.id == oid)

/-- An `UPDATE orders SET ... WHERE orders.id = oid` statement: every matching
row is rewritten by `f`, every other row is untouched. -/
def updateOrderWhere (orders : List Order) (oid : Nat) (f : Order → Order) :
    List Order :=
  orders.map (fun o => if o.id == oid then f o else o)

/-- `OrderService.update_order_status` (also
`OrderRepository.update_status`): an unconditional
`UPDATE orders SET status = ? WHERE id = ?` followed by commit.  There is no
predicate on the current status. -/
def update_order_status (db : Db) (oid : Nat) (st : OrderStatus) : Db :=
  Db.mk db.users
    (updateOrderWhere db.orders oid (fun o => { o with status := st }))

/-- `OrderRepository.set_payment_link` (and the identical
`OrderService.set_payment_link`): sets the link and moves the status to
`AWAITING_PAYMENT`, unconditionally. -/
def set_payment_link (db : Db) (oid : Nat) (link : String) : Db :=
  Db.mk db.users
    (updateOrderWhere db.orders oid
      (fun o => { o with payment_link := some link, status := .AWAITING_PAYMENT }))

/-- `OrderRepository.set_tracking_link`: sets the link and moves the status to
`IN_DELIVERY`, unconditionally. -/
def set_tracking_link (db : Db) (oid : Nat) (link : String) : Db :=
  Db.mk db.users
    (updateOrderWhere db.orders oid
      (fun o => { o with tracking_link := some link, status := .IN_DELIVERY }))

/-- `OrderService.cancel_order`: unconditional `UPDATE ... SET status = CANCELLED`. -/
def cancel_order (db : Db) (oid : Nat) : Db :=
  Db.mk db.users
    (updateOrderWhere db.orders oid (fun o => { o with status := .CANCELLED }))

/-- `OrderService.mark_as_delivered`: unconditional `UPDATE ... SET status = COMPLETED`. -/
def mark_as_delivered (db : Db) (oid : Nat) : Db :=
  Db.mk db.users
    (updateOrderWhere db.orders oid (fun o => { o with status := .COMPLETED }))

/-- `OrderRepository.assign_to_operator`: an unconditional
`UPDATE orders SET assigned_to = ?, assigned_at = utcnow() WHERE orders.id = ?`;
the statement carries no `assigned_to IS NULL` predicate. -/
def assign_to_operator (db : Db) (oid : Nat) (operatorId : Nat) (now : Nat) : Db :=
  Db.mk db.users
    (updateOrderWhere db.orders oid
      (fun o => { o with assigned_to := some operatorId, assigned_at := some now }))

/-- `OrderRepository.link_user`: attaches the Telegram user, records the
confirmed phone and moves the status to `WAITING_OPERATOR`. -/
def link_user (db : Db) (oid : Nat) (uid : Nat) (confirmedPhone : String) : Db :=
  Db.mk db.users
    (updateOrderWhere db.orders oid
      (fun o =>
        { o with user_id := some uid, confirmed_phone := some confirmedPhone,
                 status := .WAITING_OPERATOR }))

/-- Rewriting the rows matched by an `UPDATE ... WHERE id = oid` statement
commutes with `find?` by id, provided the rewrite keeps the id. -/
theorem find?_updateOrderWhere (l : List Order) (oid : Nat) (f : Order → Order)
    (hf : ∀ o, (f o).id = o.id) :
    (updateOrderWhere l oid f).find? (fun o => o.id == oid)
      = (l.find? (fun o => o.id == oid)).map f := by
  induction l with
  | nil => rfl
  | cons a t ih =>
    by_cases h : a.id = oid
    · simp [updateOrderWhere, List.find?, h, hf]
    · have hb : (a.id == oid) = false := by simp [h]
      simp only [updateOrderWhere, List.map_cons, if_neg (by simp [h] : ¬((a.id == oid) = true))]
      rw [List.find?, List.find?, hb]
      simpa [updateOrderWhere] using ih

/-- The effect of `set_tracking_link` on a subsequent fetch by id. -/
theorem findOrderById_set_tracking_link (db : Db) (oid : Nat) (link : String) :
    findOrderById (set_tracking_link db oid link) oid
      = (findOrderById db oid).map
          (fun o => { o with tracking_link := some link, status := .IN_DELIVERY }) :=
  find?_updateOrderWhere db.orders oid _ (fun _ => rfl)

/-- The effect of `update_order_status` on a subsequent fetch by id. -/
theorem findOrderById_update_order_status (db : Db) (oid : Nat) (st : OrderStatus) :
    findOrderById (update_order_status db oid st) oid
      = (findOrderById db oid).map (fun o => { o with status := st }) :=
  find?_updateOrderWhere db.orders oid _ (fun _ => rfl)

/-- The effect of `set_payment_link` on a subsequent fetch by id. -/
theorem findOrderById_set_payment_link (db : Db) (oid : Nat) (link : String) :
    findOrderById (set_payment_link db oid link) oid
      = (findOrderById db oid).map
          (fun o => { o with payment_link := some link, status := .AWAITING_PAYMENT }) :=
  find?_updateOrderWhere db.orders oid _ (fun _ => rfl)

/-- The effect of `cancel_order` on a subsequent fetch by id. -/
theorem findOrderById_cancel_order (db : Db) (oid : Nat) :
    findOrderById (cancel_order db oid) oid
      = (findOrderById db oid).map (fun o => { o with status := .CANCELLED }) :=
  find?_updateOrderWhere db.orders oid _ (fun _ => rfl)

/-- The effect of `mark_as_delivered` on a subsequent fetch by id. -/
theorem findOrderById_mark_as_delivered (db : Db) (oid : Nat) :
    findOrderById (mark_as_delivered db oid) oid
      = (findOrderById db oid).map (fun o => { o with status := .COMPLETED }) :=
  find?_updateOrderWhere db.orders oid _ (fun _ => rfl)

/-- The effect of `assign_to_operator` on a subsequent fetch by id. -/
theorem findOrderById_assign_to_operator (db : Db) (oid opId now : Nat) :
    findOrderById (assign_to_operator db oid opId now) oid
      = (findOrderById db oid).map
          (fun o => { o with assigned_to := some opId, assigned_at := some now }) :=
  find?_updateOrderWhere db.orders oid _ (fun _ => rfl)

/-- A COMPLETED order used as the concrete terminal-state scenario. -/
def exCompletedOrder : Order :=
  { id := 1, external_order_id := "2067628905", status := .COMPLETED }

/-- A one-order database whose only order is COMPLETED. -/
def exCompletedDb : Db := { users := [], orders := [exCompletedOrder] }

/-- C1 counterexample: the spec's example scenario itself fails.  Applying
`set_tracking_link` to the COMPLETED order is not rejected: it mutates the
record, moving it to IN_DELIVERY and storing the link, so the transition
attempt from the terminal state neither fails nor leaves the record
unchanged. -/
theorem set_tracking_link_escapes_completed :
    findOrderById (set_tracking_link exCompletedDb 1 "https://go.example/t") 1
      = some { exCompletedOrder with
                tracking_link := some "https://go.example/t",
                status := .IN_DELIVERY }
    ∧ OrderStatus.IN_DELIVERY ≠ OrderStatus.COMPLETED := by
  refine ⟨?_, by decide⟩
  rfl

/-- C1 (amended): none of the write operations guards on the current status.
From a terminal (COMPLETED or CANCELLED) order, `set_tracking_link` succeeds
and moves the row to IN_DELIVERY with the link stored, and
`update_order_status` moves it to any requested status; no invalid-transition
error exists in the code. -/
theorem terminal_states_not_guarded (db : Db) (oid : Nat) (o : Order)
    (link : String) (st : OrderStatus)
    (hfind : findOrderById db oid = some o)
    (hterm : o.status = .COMPLETED ∨ o.status = .CANCELLED) :
    findOrderById (set_tracking_link db oid link) oid
      = some { o with tracking_link := some link, status := .IN_DELIVERY }
    ∧ findOrderById (update_order_status db oid st) oid
      = some { o with status := st }
    ∧ findOrderById (set_payment_link db oid link) oid
      = some { o with payment_link := some link, status := .AWAITING_PAYMENT }
    ∧ findOrderById (cancel_order db oid) oid
      = some { o with status := .CANCELLED }
    ∧ findOrderById (mark_as_delivered db oid) oid
      = some { o with status := .COMPLETED } := by
  refine ⟨?_, ?_, ?_, ?_, ?_⟩
  · rw [findOrderById_set_tracking_link, hfind]
    rfl
  · rw [findOrderById_update_order_status, hfind]
    rfl
  · rw [findOrderById_set_payment_link, hfind]
    rfl
  · rw [findOrderById_cancel_order, hfind]
    rfl
  · rw [findOrderById_mark_as_delivered, hfind]
    rfl

/-- Witness for `terminal_states_not_guarded` at the concrete COMPLETED
database. -/
theorem terminal_states_not_guarded_witness :
    findOrderById (set_tracking_link exCompletedDb 1 "x") 1
      = some { exCompletedOrder with tracking_link := some "x", status := .IN_DELIVERY }
    ∧ findOrderById (update_order_status exCompletedDb 1 .PAID) 1
      = some { exCompletedOrder with status := .PAID }
    ∧ findOrderById (set_payment_link exCompletedDb 1 "x") 1
      = some { exCompletedOrder with payment_link := some "x", status := .AWAITING_PAYMENT }
    ∧ findOrderById (cancel_order exCompletedDb 1) 1
      = some { exCompletedOrder with status := .CANCELLED }
    ∧ findOrderById (mark_as_delivered exCompletedDb 1) 1
      = some { exCompletedOrder with status := .COMPLETED } :=
  terminal_states_not_guarded exCompletedDb 1 exCompletedOrder "x" .PAID
    rfl (Or.inl rfl)

/-- An order already assigned to operator 111 at time 5. -/
def exAssignedOrder : Order :=
  { id := 1, external_order_id := "2067628905", status := .WAITING_OPERATOR,
    assigned_to := some 111, assigned_at := some 5 }

/-- A one-order database whose only order is already assigned. -/
def exAssignedDb : Db := { users := [], orders := [exAssignedOrder] }

/-- C2 counterexample: claiming an order that is already assigned to
operator 111 does not return the existing assignment unchanged; the call
overwrites both the assignee and the assignment timestamp with the
claimant's. -/
theorem assign_to_operator_steals :
    findOrderById (assign_to_operator exAssignedDb 1 222 9) 1
      = some { exAssignedOrder with assigned_to := some 222, assigned_at := some 9 }
    ∧ (some 222 : Option Nat) ≠ some 111 := by
  refine ⟨?_, by decide⟩
  rfl

/-- C2 (amended): `assign_to_operator` is an unconditional
`UPDATE ... WHERE id = ?` with no `assigned_to IS NULL` predicate: a single
claim always installs the caller as assignee regardless of any existing
assignment, and of two successive claims on the same order the second one
wins. -/
theorem assign_to_operator_unconditional (db : Db) (oid : Nat) (o : Order)
    (op1 t1 op2 t2 : Nat)
    (hfind : findOrderById db oid = some o) :
    findOrderById (assign_to_operator db oid op2 t2) oid
      = some { o with assigned_to := some op2, assigned_at := some t2 }
    ∧ findOrderById (assign_to_operator (assign_to_operator db oid op1 t1) oid op2 t2) oid
      = some { o with assigned_to := some op2, assigned_at := some t2 } := by
  have h1 : findOrderById (assign_to_operator db oid op1 t1) oid
      = some { o with assigned_to := some op1, assigned_at := some t1 } := by
    rw [findOrderById_assign_to_operator, hfind]
    rfl
  refine ⟨?_, ?_⟩
  · rw [findOrderById_assign_to_operator, hfind]
    rfl
  · rw [findOrderById_assign_to_operator, h1]
    rfl

/-- Witness for `assign_to_operator_unconditional` at the concrete
already-assigned database. -/
theorem assign_to_operator_unconditional_witness :
    findOrderById (assign_to_operator exAssignedDb 1 222 9) 1
      = some { exAssignedOrder with assigned_to := some 222, assigned_at := some 9 }
    ∧ findOrderById (assign_to_operator (assign_to_operator exAssignedDb 1 333 7) 1 222 9) 1
      = some { exAssignedOrder with assigned_to := some 222, assigned_at := some 9 } :=
  assign_to_operator_unconditional exAssignedDb 1 exAssignedOrder 333 7 222 9 rfl

/-- The webhook's view of the request body: the multidict produced by
`await request.form()` (or the JSON object), as a key/value association list;
`get` returns the first binding. -/
def FormData : Type := List (String × String)

instance : DecidableEq FormData := by
  unfold FormData
  infer_instance

instance : Membership (String × String) FormData := by
  unfold FormData
  infer_instance

/-- Length of the underlying association list. -/
def FormData.size (fd : FormData) : Nat := List.length fd

/-- Python `form_data.get(k)`: first binding of `k`, or `None`. -/
def fdGet (fd : FormData) (k : String) : Option String :=
  (List.find? (fun p => p.1 == k) fd).map (fun p => p.2)

/-- Python `form_data.get(k, d)`: first binding of `k`, or the default. -/
def fdGetD (fd : FormData) (k d : String) : String :=
  (fdGet fd k).getD d

/-- Python `k in form_data`. -/
def fdHas (fd : FormData) (k : String) : Bool :=
  (fdGet fd k).isSome

/-- Numeric value of a decimal digit character. -/
def digitVal (c : Char) : Nat := c.toNat - 48

/-- A non-empty all-digit character list read as a decimal numeral; `none`
otherwise.  This is the digit-string core shared by the models of Python's
`int()` and `float()`. -/
def parseDigits? (l : List Char) : Option Nat :=
  if !l.isEmpty && l.all Char.isDigit then
    some (l.foldl (fun a c => 10 * a + digitVal c) 0)
  else none

/-- Python's `str.strip()` of surrounding whitespace, as both `int()` and
`float()` apply it to their argument. -/
def pyStrip (l : List Char) : List Char :=
  ((l.dropWhile Char.isWhitespace).reverse.dropWhile Char.isWhitespace).reverse

/-- Splits a character list at each `'.'` (used to model the decimal-point
handling of Python's `float()`). -/
def splitDot : List Char → List (List Char)
  | [] => [[]]
  | c :: cs =>
    if c = '.' then [] :: splitDot cs
    else
      match splitDot cs with
      | [] => [[c]]
      | h :: t => (c :: h) :: t

/-- Python `int(s)` on strings, modelled on its decimal fragment: optional
surrounding whitespace, an optional sign, then decimal digits; anything else
raises `ValueError`, i.e. returns `none`. -/
def pyInt? (s : String) : Option ℤ :=
  match pyStrip s.data with
  | '-' :: rest => (parseDigits? rest).map (fun n => -(n : ℤ))
  | '+' :: rest => (parseDigits? rest).map (fun n => (n : ℤ))
  | l => (parseDigits? l).map (fun n => (n : ℤ))

/-- Python `float(s)` on strings, modelled on its plain decimal fragment:
optional surrounding whitespace, an optional sign, then digits with an
optional fractional part (`"690"`, `"6.5"`, `"1."`, `".5"`); anything else
raises `ValueError`, i.e. returns `none`. -/
def pyFloat? (s : String) : Option ℚ :=
  let t := pyStrip s.data
  let neg : Bool := match t with | c :: _ => c = '-' | [] => false
  let u := match t with | '-' :: r => r | '+' :: r => r | l => l
  let mag : Option ℚ :=
    match splitDot u with
    | [a] => (parseDigits? a).map (fun n => (n : ℚ))
    | [a, b] =>
      if a.isEmpty && b.isEmpty then none
      else
        match (if a.isEmpty then some 0 else parseDigits? a),
              (if b.isEmpty then some 0 else parseDigits? b) with
        | some ip, some fp =>
            some ((ip : ℚ) + (fp : ℚ) / ((10 : ℚ) ^ b.length))
        | _, _ => none
    | _ => none
  mag.map (fun q => if neg then -q else q)

/-- The Tilda line-item field key `payment[i][field]` as interpolated by the
handler's f-strings. -/
def itemKey (i : Nat) (field : String) : String :=
  "payment[" ++ Nat.repr i ++ "][" ++ field ++ "]"

/-- One iteration body of the item loop in `handle_tilda_webhook`: the dict
appended for index `i`.  `none` models the `(ValueError, TypeError)` branch:
the item is logged and skipped.  Price defaults to `float(0)` and quantity to
`int(1)` when their keys are absent, exactly as the `.get` defaults do. -/
def parseItem (fd : FormData) (i : Nat) : Option Item :=
  match fdGet fd (itemKey i "title") with
  | none => none
  | some title =>
    match (match fdGet fd (itemKey i "price") with
           | none => some (0 : ℚ)
           | some s => pyFloat? s),
          (match fdGet fd (itemKey i "quantity") with
           | none => some (1 : ℤ)
           | some s => pyInt? s) with
    | some p, some q => some { title := title, price := p, quantity := q,
                               sku := fdGet fd (itemKey i "sku") }
    | _, _ => none

/-- The `while f"payment[i][title]" in form_data` loop of
`handle_tilda_webhook`, starting at index `i` with explicit fuel.  The
Python loop has no fuel; `extractItems` supplies a fuel that is provably
larger than the first missing index, so the two agree. -/
def extractItemsFrom (fd : FormData) : Nat → Nat → List Item
  | _, 0 => []
  | i, fuel + 1 =>
    if fdHas fd (itemKey i "title") then
      match parseItem fd i with
      | some it => it :: extractItemsFrom fd (i + 1) fuel
      | none => extractItemsFrom fd (i + 1) fuel
    else []

/-- The item-collection loop of `handle_tilda_webhook`: visit indices
`0, 1, 2, ...` while the title key is present, appending each successfully
parsed item.  The fuel `fd.size + 1` always exceeds the first missing index
(there are at most `fd.size` distinct present keys), so this equals the
unbounded Python loop. -/
def extractItems (fd : FormData) : List Item :=
  extractItemsFrom fd 0 (fd.size + 1)

/-- The address-assembly block of `handle_tilda_webhook`:
`[street, f"д. {home}"]`, plus `f"кв. {apartment}"` when the `apartment`
field is present and truthy, joined by `", "` after dropping falsy (empty)
strings via `filter(None, ...)`. -/
def assembleAddress (fd : FormData) : String :=
  let base := [fdGetD fd "street" "", "д. " ++ fdGetD fd "home" ""]
  let parts :=
    match fdGet fd "apartment" with
    | some ap => if ap.data.isEmpty then base else base ++ ["кв. " ++ ap]
    | none => base
  String.intercalate ", " (parts.filter (fun p => !p.data.isEmpty))

/-- Reads a digit-character list as a decimal numeral on top of an
accumulator (the loop of `parseDigits?`, in recursive form). -/
def digitsAcc : List Char → Nat → Nat
  | [], a => a
  | c :: cs, a => digitsAcc cs (10 * a + digitVal c)

/-- For an actual digit, `Nat.digitChar` round-trips through `digitVal`. -/
theorem digitVal_digitChar (d : Nat) (h : d < 10) :
    digitVal (Nat.digitChar d) = d := by
  interval_cases d <;> rfl

/-- Value correctness of the core of `Nat.repr`: the digit list produced by
`Nat.toDigitsCore` for `n` reads back as `n` (shifted past the accumulator). -/
theorem digitsAcc_toDigitsCore (fuel : Nat) :
    ∀ n ds a, n < fuel →
      ∃ e, digitsAcc (Nat.toDigitsCore 10 fuel n ds) a
            = digitsAcc ds (a * 10 ^ (e + 1) + n) ∧ n < 10 ^ (e + 1) := by
  induction fuel with
  | zero => intro n ds a h; omega
  | succ f ih =>
    intro n ds a h
    by_cases h0 : n / 10 = 0
    · have hn : n < 10 := by omega
      have hm : n % 10 = n := Nat.mod_eq_of_lt hn
      refine ⟨0, ?_, by simpa using hn⟩
      show digitsAcc (if n / 10 = 0 then Nat.digitChar (n % 10) :: ds
            else Nat.toDigitsCore 10 f (n / 10) (Nat.digitChar (n % 10) :: ds)) a = _
      rw [if_pos h0]
      show digitsAcc ds (10 * a + digitVal (Nat.digitChar (n % 10))) = _
      rw [hm, digitVal_digitChar n hn]
      congr 1
      ring
    · have hd10 : n / 10 < n := Nat.div_lt_self (by omega) (by omega)
      obtain ⟨e, he, hb⟩ := ih (n / 10) (Nat.digitChar (n % 10) :: ds) a (by omega)
      refine ⟨e + 1, ?_, ?_⟩
      · show digitsAcc (if n / 10 = 0 then Nat.digitChar (n % 10) :: ds
              else Nat.toDigitsCore 10 f (n / 10) (Nat.digitChar (n % 10) :: ds)) a = _
        rw [if_neg h0, he]
        show digitsAcc ds (10 * (a * 10 ^ (e + 1) + n / 10)
              + digitVal (Nat.digitChar (n % 10))) = _
        rw [digitVal_digitChar (n % 10) (Nat.mod_lt n (by omega))]
        congr 1
        have hdm : 10 * (n / 10) + n % 10 = n := Nat.div_add_mod n 10
        calc 10 * (a * 10 ^ (e + 1) + n / 10) + n % 10
            = a * (10 ^ (e + 1) * 10) + (10 * (n / 10) + n % 10) := by ring
          _ = a * 10 ^ (e + 1 + 1) + n := by rw [hdm]; ring
      · have : 10 ^ (e + 1 + 1) = 10 ^ (e + 1) * 10 := Nat.pow_succ ..
        have hdm : 10 * (n / 10) + n % 10 = n := Nat.div_add_mod n 10
        have hm10 : n % 10 < 10 := Nat.mod_lt n (by omega)
        omega

/-- The decimal digit list `Nat.toDigits 10 n` reads back as `n`. -/
theorem digitsAcc_toDigits (n : Nat) :
    digitsAcc (Nat.toDigits 10 n) 0 = n := by
  obtain ⟨e, he, -⟩ := digitsAcc_toDigitsCore (n + 1) n [] 0 (by omega)
  rw [Nat.toDigits] at *
  rw [he]
  show 0 * 10 ^ (e + 1) + n = n
  omega

/-- Distinct naturals print as distinct decimal strings. -/
theorem nat_repr_injective : Function.Injective Nat.repr := by
  intro m n h
  have hdig : Nat.toDigits 10 m = Nat.toDigits 10 n := by
    have hd := congrArg String.data h
    simpa [Nat.repr, List.asString] using hd
  calc m = digitsAcc (Nat.toDigits 10 m) 0 := (digitsAcc_toDigits m).symm
    _ = digitsAcc (Nat.toDigits 10 n) 0 := by rw [hdig]
    _ = n := digitsAcc_toDigits n

/-- Distinct item indices give distinct form keys. -/
theorem itemKey_injective (field : String) :
    Function.Injective (fun i => itemKey i field) := by
  intro i j h
  simp only [itemKey] at h
  have hd := congrArg String.data h
  simp only [String.data_append] at hd
  have hd2 : (Nat.repr i).data ++ ("][".data ++ (field.data ++ "]".data))
      = (Nat.repr j).data ++ ("][".data ++ (field.data ++ "]".data)) := by
    have := List.append_cancel_left (by simpa [List.append_assoc] using hd :
      "payment[".data ++ ((Nat.repr i).data ++ ("][".data ++ (field.data ++ "]".data)))
        = "payment[".data ++ ((Nat.repr j).data ++ ("][".data ++ (field.data ++ "]".data))))
    exact this
  have hr : (Nat.repr i).data = (Nat.repr j).data := List.append_cancel_right hd2
  exact nat_repr_injective (String.ext hr)

/-- A present form key is a key of some entry of the association list. -/
theorem fdHas_mem_keys (fd : FormData) (k : String) (h : fdHas fd k = true) :
    k ∈ List.map Prod.fst fd := by
  have hsome : (List.find? (fun p => p.1 == k) fd).isSome := by
    simpa [fdHas, fdGet] using h
  rcases List.find?_isSome.mp hsome with ⟨p, hp, hpk⟩
  have : p.1 = k := by simpa using hpk
  exact this ▸ List.mem_map_of_mem Prod.fst hp

/-- Pigeonhole bound for the item loop: if the title keys of all indices
below `n` are present in the form, then `n` is at most the number of form
entries (the keys are pairwise distinct). -/
theorem dense_prefix_le_size (fd : FormData) (n : Nat)
    (hdense : ∀ j, j < n → fdHas fd (itemKey j "title") = true) :
    n ≤ FormData.size fd := by
  have hsub : ((List.range n).map (fun j => itemKey j "title"))
      ⊆ List.map Prod.fst fd := by
    intro k hk
    rcases List.mem_map.mp hk with ⟨j, hj, rfl⟩
    exact fdHas_mem_keys fd _ (hdense j (List.mem_range.mp hj))
  have hnodup : ((List.range n).map (fun j => itemKey j "title")).Nodup :=
    (List.nodup_range n).map (itemKey_injective "title")
  have hlen := (List.subperm_of_subset hnodup hsub).length_le
  simpa [FormData.size] using hlen

/-- Loop characterization with explicit fuel: starting at index `i`, with the
next `k` title keys present and the one after them absent, the loop visits
exactly indices `i, ..., i+k-1` in order and keeps the successfully parsed
items. -/
theorem extractItemsFrom_spec (fd : FormData) :
    ∀ k i fuel, (∀ j, j < k → fdHas fd (itemKey (i + j) "title") = true) →
      fdHas fd (itemKey (i + k) "title") = false → k < fuel →
      extractItemsFrom fd i fuel = (List.range' i k).filterMap (parseItem fd) := by
  intro k
  induction k with
  | zero =>
    intro i fuel hdense hmiss hfuel
    match fuel, hfuel with
    | f + 1, _ =>
      have hm : fdHas fd (itemKey i "title") = false := by simpa using hmiss
      simp [extractItemsFrom, hm]
  | succ k ih =>
    intro i fuel hdense hmiss hfuel
    match fuel, hfuel with
    | f + 1, hfuel =>
      have h0 : fdHas fd (itemKey i "title") = true := by
        simpa using hdense 0 (by omega)
      have hdense' : ∀ j, j < k → fdHas fd (itemKey (i + 1 + j) "title") = true := by
        intro j hj
        have := hdense (j + 1) (by omega)
        simpa [Nat.add_assoc, Nat.add_comm 1 j] using this
      have hmiss' : fdHas fd (itemKey (i + 1 + k) "title") = false := by
        have : i + 1 + k = i + (k + 1) := by omega
        rw [this]
        exact hmiss
      have hrec := ih (i + 1) f hdense' hmiss' (by omega)
      rw [List.range'_succ, List.filterMap_cons]
      show (if fdHas fd (itemKey i "title") = true then
              match parseItem fd i with
              | some it => it :: extractItemsFrom fd (i + 1) f
              | none => extractItemsFrom fd (i + 1) f
            else []) = _
      rw [if_pos h0, hrec]
      cases hp : parseItem fd i <;> simp [hp]

/-- The item loop of the webhook handler visits indices `0, 1, 2, ...` in
order, stops at the first index whose title key is absent, and keeps exactly
the items that parse. -/
theorem extractItems_spec (fd : FormData) (n : Nat)
    (hdense : ∀ j, j < n → fdHas fd (itemKey j "title") = true)
    (hmiss : fdHas fd (itemKey n "title") = false) :
    extractItems fd = (List.range n).filterMap (parseItem fd) := by
  have hle := dense_prefix_le_size fd n hdense
  have h := extractItemsFrom_spec fd n 0 (FormData.size fd + 1)
    (by simpa using hdense) (by simpa using hmiss) (by omega)
  rw [extractItems, h, List.range_eq_range']

/-- Outcome of the `session.add(user); session.flush()` insert inside
`UserService.get_or_create_by_phone`: either the row goes in, or the store
raises `IntegrityError` because a concurrent caller already inserted a row
with the same unique phone. -/
inductive InsertOutcome where
  | inserted
  | uniqueViolation
deriving DecidableEq, Repr

/-- The error surfaced when `UserService.get_or_create_by_phone` re-raises
the caught `IntegrityError`. -/
inductive UserServiceError where
  | integrityError
deriving DecidableEq, Repr

/-- Models `random.randint lo hi`: a draw from the inclusive range
`[lo, hi]`, determined by the explicit randomness `seed`. -/
def randint (lo hi seed : Nat) : Nat := lo + seed % (hi + 1 - lo)

/-- The user row built by `UserService.get_or_create_by_phone` when no row
with the phone exists: a random 8-digit `user_id` (the column that otherwise
stores Telegram identities), the form name, phone and email, role CLIENT. -/
def newUserFromPhone (phone name email : String) (seed : Nat) : User :=
  { user_id := randint 10000000 99999999 seed
    first_name := name
    phone := some phone
    email := some email
    role := .CLIENT }

/-- Control flow of `UserService.get_or_create_by_phone`, written over the
results of its three store interactions: the first `SELECT` by phone, the
insert attempt, and the `SELECT` re-run from the `except IntegrityError`
handler after `rollback()`.  The single `except` block catches the
uniqueness violation exactly once; if the re-lookup also finds nothing the
bare `raise` re-raises it. -/
def get_or_create_by_phone (firstLookup : Option User) (insert : InsertOutcome)
    (secondLookup : Option User) (newUser : User) : Except UserServiceError User :=
  match firstLookup with
  | some u => .ok u
  | none =>
    match insert with
    | .inserted => .ok newUser
    | .uniqueViolation =>
      match secondLookup with
      | some u => .ok u
      | none => .error .integrityError

/-- `UserService.get_or_create_by_phone` executed against the store value
when no concurrent writer interferes (the insert cannot raise): look up by
phone, return the hit, otherwise insert the freshly built user. -/
def get_or_create_by_phone_run (db : Db) (phone name email : String) (seed : Nat) :
    User × Db :=
  match findUserByPhone db phone with
  | some u => (u, db)
  | none =>
    let u := newUserFromPhone phone name email seed
    (u, Db.mk (db.users ++ [u]) db.orders)

/-- The operator notification enqueued by `handle_tilda_webhook` via
`background_tasks.add_task(notify_operator_async, ...)`. -/
structure Notif where
  order_id : String
  customer_name : String
  customer_phone : String
  total_amount : ℚ
  address : String
deriving DecidableEq, Repr

/-- The HTTP-visible outcome of the webhook endpoint: an `HTTPException`
with a status code, or the success JSON, whose `message` key is present only
on the duplicate path and whose `deep_link` key is present only on the
creation path. -/
inductive WebhookResult where
  | reject (code : Nat)
  | ok (order_id : String) (message : Option String) (deep_link : Option String)
deriving DecidableEq, Repr

/-- An inbound webhook request: the `X-Tilda-Signature` header, the exact
raw body bytes, and the structured view of the body (`await request.form()`
falling back to `await request.json()`); `none` models a body neither parser
accepts. -/
structure Request where
  signature : String
  body : String
  form : Option FormData

/-- What `handle_tilda_webhook` returns to the caller, does to the store,
and enqueues for the operator. -/
structure WebhookOutput where
  result : WebhookResult
  db : Db
  notifications : List Notif
deriving DecidableEq, Repr

/-- The deep link generated for a created order:
`https://t.me/<bot_username>?start=order_<external id>`. -/
def deepLinkFor (botUsername ext : String) : String :=
  "https://t.me/" ++ botUsername ++ "?start=order_" ++ ext

/-- The `amount` field as the handler converts it:
`float(form_data.get("amount", 0))`; `none` models the `ValueError` that the
creation `try` block turns into a 500 rollback. -/
def parseAmount (fd : FormData) : Option ℚ :=
  match fdGet fd "amount" with
  | none => some 0
  | some s => pyFloat? s

/-- The order row built by `OrderRepository.create_from_webhook` for a
deduplicated form: snapshot of the Tilda fields, parsed items, assembled
address, status NEW, next autoincrement id. -/
def webhookOrder (fd : FormData) (ext : String) (db : Db) (amt : ℚ) : Order :=
  { id := db.orders.length + 1
    external_order_id := ext
    tilda_name := fdGetD fd "name" "Guest"
    tilda_phone := fdGetD fd "phone" ""
    address := assembleAddress fd
    items := extractItems fd
    base_amount := amt
    status := .NEW }

/-- `handle_tilda_webhook` of `app/api/webhooks/tilda.py`:
1. compare the signature header against the hex HMAC of the raw body with
   `hmac.compare_digest` (modelled as equality of the two strings) — before
   the body is parsed at all; mismatch is `HTTPException 403`;
2. parse the body (`none` is `HTTPException 400`);
3. require a truthy `formid` (`HTTPException 400` otherwise);
4. deduplicate on the external id: an existing order returns the ok JSON
   with the `message` key and no `deep_link`, touching nothing;
5. resolve-or-create the user by phone, extract items, assemble the
   address, convert the amount (a `ValueError` rolls the transaction back
   into `HTTPException 500`), insert the NEW order, commit;
6. enqueue the operator notification and return the ok JSON with the
   `deep_link`. -/
def handle_tilda_webhook (mac : String → String → String) (secret botUsername : String)
    (req : Request) (db : Db) (seed : Nat) : WebhookOutput :=
  if req.signature ≠ mac secret req.body then
    WebhookOutput.mk (.reject 403) db []
  else
    match req.form with
    | none => WebhookOutput.mk (.reject 400) db []
    | some fd =>
      match fdGet fd "formid" with
      | none => WebhookOutput.mk (.reject 400) db []
      | some orderId =>
        if orderId = "" then WebhookOutput.mk (.reject 400) db []
        else
          match findOrderByExternalId db orderId with
          | some _ =>
            WebhookOutput.mk (.ok orderId (some "Already processed") none) db []
          | none =>
            let phone := fdGetD fd "phone" ""
            let name := fdGetD fd "name" "Guest"
            let ud := get_or_create_by_phone_run db phone name (fdGetD fd "email" "") seed
            match parseAmount fd with
            | none => WebhookOutput.mk (.reject 500) db []
            | some amt =>
              let order := webhookOrder fd orderId ud.2 amt
              WebhookOutput.mk
                (.ok orderId none (some (deepLinkFor botUsername orderId)))
                (Db.mk ud.2.users (ud.2.orders ++ [order]))
                [Notif.mk orderId name phone amt (assembleAddress fd)]

/-- Resolving a user never touches the orders table. -/
theorem get_or_create_by_phone_run_orders (db : Db) (phone name email : String)
    (seed : Nat) :
    (get_or_create_by_phone_run db phone name email seed).2.orders = db.orders := by
  unfold get_or_create_by_phone_run
  cases findUserByPhone db phone <;> rfl

/-- The creation path of the webhook: with a valid signature, a parseable
body, a truthy external id not yet in the store and a convertible amount,
the handler answers the ok JSON with the deep link, appends exactly the
`webhookOrder` row, and enqueues exactly one operator notification. -/
theorem handle_tilda_webhook_success (mac : String → String → String)
    (secret bot : String) (req : Request) (db : Db) (seed : Nat)
    (fd : FormData) (ext : String) (amt : ℚ)
    (hsig : req.signature = mac secret req.body)
    (hform : req.form = some fd)
    (hfid : fdGet fd "formid" = some ext)
    (hne : ext ≠ "")
    (hdup : findOrderByExternalId db ext = none)
    (hamt : parseAmount fd = some amt) :
    handle_tilda_webhook mac secret bot req db seed =
      WebhookOutput.mk (.ok ext none (some (deepLinkFor bot ext)))
        (Db.mk
          (get_or_create_by_phone_run db (fdGetD fd "phone" "")
              (fdGetD fd "name" "Guest") (fdGetD fd "email" "") seed).2.users
          (db.orders ++
            [webhookOrder fd ext
              (get_or_create_by_phone_run db (fdGetD fd "phone" "")
                (fdGetD fd "name" "Guest") (fdGetD fd "email" "") seed).2 amt]))
        [Notif.mk ext (fdGetD fd "name" "Guest") (fdGetD fd "phone" "") amt
          (assembleAddress fd)] := by
  have hne2 : (ext = "") = False := by simp [hne]
  simp only [handle_tilda_webhook, hsig, ne_eq, eq_self_iff_true, not_true_eq_false,
    if_false, hform, hfid, hne2, hdup, hamt, get_or_create_by_phone_run_orders]

/-- The deduplication path of the webhook: with a valid signature and a
truthy external id that already has an order, the handler answers the ok
JSON with the `Already processed` message and no deep link, and neither
writes to the store nor notifies anyone. -/
theorem handle_tilda_webhook_duplicate (mac : String → String → String)
    (secret bot : String) (req : Request) (db : Db) (seed : Nat)
    (fd : FormData) (ext : String) (o : Order)
    (hsig : req.signature = mac secret req.body)
    (hform : req.form = some fd)
    (hfid : fdGet fd "formid" = some ext)
    (hne : ext ≠ "")
    (hdup : findOrderByExternalId db ext = some o) :
    handle_tilda_webhook mac secret bot req db seed =
      WebhookOutput.mk (.ok ext (some "Already processed") none) db [] := by
  have hne2 : (ext = "") = False := by simp [hne]
  simp only [handle_tilda_webhook, hsig, ne_eq, eq_self_iff_true, not_true_eq_false,
    if_false, hform, hfid, hne2, hdup]

/-- C4: the webhook responds 403 exactly when the supplied signature differs
from the MAC of the exact raw body under the shared secret (the
`hmac.compare_digest` comparison, modelled by string equality), the check is
decided before the body's structured content enters the control flow (the
rejection happens for every `req.form`, parseable or not), and the rejected
request leaves the store untouched and notifies no one. -/
theorem webhook_signature_enforcement (mac : String → String → String)
    (secret bot : String) (req : Request) (db : Db) (seed : Nat) :
    ((handle_tilda_webhook mac secret bot req db seed).result = .reject 403
      ↔ req.signature ≠ mac secret req.body)
    ∧ (req.signature ≠ mac secret req.body →
        handle_tilda_webhook mac secret bot req db seed
          = WebhookOutput.mk (.reject 403) db []) := by
  by_cases hs : req.signature = mac secret req.body
  · have hno : (handle_tilda_webhook mac secret bot req db seed).result ≠ .reject 403 := by
      unfold handle_tilda_webhook
      rw [if_neg (by simp [hs])]
      rcases req.form with _ | fd
      · simp
      · simp only []
        rcases hf : fdGet fd "formid" with _ | ext
        · simp
        · simp only []
          by_cases he : ext = ""
          · simp [he]
          · rw [if_neg he]
            rcases hd : findOrderByExternalId db ext with _ | o
            · simp only []
              rcases ha : parseAmount fd with _ | amt <;> simp
            · simp
    refine ⟨⟨fun h => absurd h hno, fun h => absurd hs h⟩, fun h => absurd hs h⟩
  · have hr : handle_tilda_webhook mac secret bot req db seed
        = WebhookOutput.mk (.reject 403) db [] := by
      unfold handle_tilda_webhook
      rw [if_pos hs]
    exact ⟨by rw [hr]; simp [hs], fun _ => hr⟩

/-- A MAC stand-in used only to instantiate witnesses. -/
def cMac (k m : String) : String := k ++ "#" ++ m

/-- A request with a wrong signature for `cMac`/secret `"s"`. -/
def cBadReq : Request :=
  { signature := "forged", body := "b", form := some [("formid", "90")] }

/-- Witness for `webhook_signature_enforcement`: the forged request is
rejected with 403 and the store is untouched. -/
theorem webhook_signature_enforcement_witness :
    handle_tilda_webhook cMac "s" "bot" cBadReq (Db.mk [] []) 0
      = WebhookOutput.mk (.reject 403) (Db.mk [] []) [] :=
  (webhook_signature_enforcement cMac "s" "bot" cBadReq (Db.mk [] []) 0).2 (by decide)

/-- The deep-link component of a webhook response payload (`none` when the
JSON has no `deep_link` key). -/
def WebhookResult.deepLink? : WebhookResult → Option String
  | .ok _ _ d => d
  | .reject _ => none

/-- The empty store. -/
def emptyDb : Db := Db.mk [] []

/-- A well-signed creation request for external id `"90"` under `cMac` and
secret `"s"`. -/
def cGoodReq : Request :=
  { signature := cMac "s" "b", body := "b",
    form := some [("formid", "90"), ("amount", "690")] }

/-- C3 counterexample: replaying the same well-signed request is answered
with a success payload that carries the external order id but no deep-link
token, so the duplicate response payload does not contain the deep link the
claim promises. -/
theorem duplicate_response_lacks_deep_link :
    (handle_tilda_webhook cMac "s" "bot" cGoodReq
        (handle_tilda_webhook cMac "s" "bot" cGoodReq emptyDb 0).db 1).result
      = .ok "90" (some "Already processed") none
    ∧ (handle_tilda_webhook cMac "s" "bot" cGoodReq
        (handle_tilda_webhook cMac "s" "bot" cGoodReq emptyDb 0).db 1).result.deepLink?
      = none := by
  refine ⟨?_, ?_⟩ <;> decide

/-- C3 (amended): processing two well-signed requests carrying the same
external order id leaves exactly one order row with that id; the second
request writes nothing, enqueues no second operator notification, and is
answered with a success payload carrying the external id — but, unlike the
first response, the payload of the duplicate carries the
`Already processed` marker instead of the deep-link token. -/
theorem webhook_idempotent_ingestion (mac : String → String → String)
    (secret bot : String) (req1 req2 : Request) (db : Db) (seed1 seed2 : Nat)
    (fd1 fd2 : FormData) (ext : String) (amt : ℚ)
    (h1sig : req1.signature = mac secret req1.body)
    (h1form : req1.form = some fd1)
    (h1fid : fdGet fd1 "formid" = some ext)
    (hne : ext ≠ "")
    (hdup : findOrderByExternalId db ext = none)
    (hamt : parseAmount fd1 = some amt)
    (h2sig : req2.signature = mac secret req2.body)
    (h2form : req2.form = some fd2)
    (h2fid : fdGet fd2 "formid" = some ext) :
    (handle_tilda_webhook mac secret bot req1 db seed1).result
      = .ok ext none (some (deepLinkFor bot ext))
    ∧ (handle_tilda_webhook mac secret bot req2
         (handle_tilda_webhook mac secret bot req1 db seed1).db seed2)
      = WebhookOutput.mk (.ok ext (some "Already processed") none)
          (handle_tilda_webhook mac secret bot req1 db seed1).db []
    ∧ (((handle_tilda_webhook mac secret bot req1 db seed1).db.orders.filter
          (fun o => o.external_order_id == ext)).length = 1)
    ∧ (handle_tilda_webhook mac secret bot req1 db seed1).notifications.length = 1 := by
  have h1 := handle_tilda_webhook_success mac secret bot req1 db seed1 fd1 ext amt
    h1sig h1form h1fid hne hdup hamt
  have hnone : ∀ o ∈ db.orders, ¬((fun o => o.external_order_id == ext) o = true) :=
    List.find?_eq_none.mp hdup
  have hfound : findOrderByExternalId (handle_tilda_webhook mac secret bot req1 db seed1).db ext
      = some (webhookOrder fd1 ext
          (get_or_create_by_phone_run db (fdGetD fd1 "phone" "")
            (fdGetD fd1 "name" "Guest") (fdGetD fd1 "email" "") seed1).2 amt) := by
    rw [h1]
    show List.find? _ (db.orders ++ [_]) = _
    rw [List.find?_append]
    rw [show List.find? (fun o => o.external_order_id == ext) db.orders = none from hdup]
    simp [webhookOrder]
  refine ⟨by rw [h1], ?_, ?_, by rw [h1]; rfl⟩
  · have h2 := handle_tilda_webhook_duplicate mac secret bot req2
      (handle_tilda_webhook mac secret bot req1 db seed1).db seed2 fd2 ext _
      h2sig h2form h2fid hne hfound
    exact h2
  · rw [h1]
    show (List.filter _ (db.orders ++ [_])).length = 1
    rw [List.filter_append]
    have hfe : List.filter (fun o => o.external_order_id == ext) db.orders = [] := by
      rw [List.filter_eq_nil]
      intro a ha
      exact hnone a ha
    rw [hfe]
    simp [webhookOrder]

/-- Witness for `webhook_idempotent_ingestion` at the concrete replayed
request. -/
theorem webhook_idempotent_ingestion_witness :
    (handle_tilda_webhook cMac "s" "bot" cGoodReq emptyDb 0).result
      = .ok "90" none (some (deepLinkFor "bot" "90"))
    ∧ (handle_tilda_webhook cMac "s" "bot" cGoodReq
         (handle_tilda_webhook cMac "s" "bot" cGoodReq emptyDb 0).db 1)
      = WebhookOutput.mk (.ok "90" (some "Already processed") none)
          (handle_tilda_webhook cMac "s" "bot" cGoodReq emptyDb 0).db []
    ∧ (((handle_tilda_webhook cMac "s" "bot" cGoodReq emptyDb 0).db.orders.filter
          (fun o => o.external_order_id == "90")).length = 1)
    ∧ (handle_tilda_webhook cMac "s" "bot" cGoodReq emptyDb 0).notifications.length = 1 :=
  webhook_idempotent_ingestion cMac "s" "bot" cGoodReq cGoodReq emptyDb 0 1
    [("formid", "90"), ("amount", "690")] [("formid", "90"), ("amount", "690")] "90" 690
    rfl rfl (by decide) (by decide) (by decide) (by decide) rfl rfl (by decide)

/-- C7: the item loop visits indices `0, 1, ...` in order and stops at the
first index whose title key is absent; an index whose price or quantity
fails numeric conversion contributes nothing (it is skipped) while later
indices still contribute; and the handler creates the order with the
extracted item list whatever it is — the hypotheses put no lower bound on
the number of items, so an empty extraction still yields the NEW order. -/
theorem line_item_extraction_contract :
    (∀ (fd : FormData) (n : Nat),
        (∀ j, j < n → fdHas fd (itemKey j "title") = true) →
        fdHas fd (itemKey n "title") = false →
        extractItems fd = (List.range n).filterMap (parseItem fd))
    ∧ (∀ (mac : String → String → String) (secret bot : String) (req : Request)
        (db : Db) (seed : Nat) (fd : FormData) (ext : String) (amt : ℚ),
        req.signature = mac secret req.body → req.form = some fd →
        fdGet fd "formid" = some ext → ext ≠ "" →
        findOrderByExternalId db ext = none → parseAmount fd = some amt →
        ∃ o ∈ (handle_tilda_webhook mac secret bot req db seed).db.orders,
          o.external_order_id = ext ∧ o.items = extractItems fd
            ∧ o.status = .NEW) := by
  refine ⟨extractItems_spec, ?_⟩
  intro mac secret bot req db seed fd ext amt hsig hform hfid hne hdup hamt
  rw [handle_tilda_webhook_success mac secret bot req db seed fd ext amt
    hsig hform hfid hne hdup hamt]
  refine ⟨webhookOrder fd ext
    (get_or_create_by_phone_run db (fdGetD fd "phone" "")
      (fdGetD fd "name" "Guest") (fdGetD fd "email" "") seed).2 amt, ?_, rfl, rfl, rfl⟩
  exact List.mem_append_right _ (List.mem_singleton.mpr rfl)

/-- A form whose item group is dense at indices 0, 1, 2 and whose index 1
has an unconvertible price. -/
def exItemsFd : FormData :=
  [("payment[0][title]", "Пицца"), ("payment[0][price]", "690"),
   ("payment[0][quantity]", "1"),
   ("payment[1][title]", "Кола"), ("payment[1][price]", "abc"),
   ("payment[2][title]", "Чай")]

/-- Witness for `line_item_extraction_contract`: the dense-through-2 form
extracts exactly its parseable items (index 1 is skipped), and the
zero-item request still creates its NEW order. -/
theorem line_item_extraction_contract_witness :
    (extractItems exItemsFd = (List.range 3).filterMap (parseItem exItemsFd))
    ∧ ∃ o ∈ (handle_tilda_webhook cMac "s" "bot" cGoodReq emptyDb 0).db.orders,
        o.external_order_id = "90"
          ∧ o.items = extractItems [("formid", "90"), ("amount", "690")]
          ∧ o.status = .NEW :=
  ⟨line_item_extraction_contract.1 exItemsFd 3
      (fun j hj =>
        match j, hj with
        | 0, _ => by decide
        | 1, _ => by decide
        | 2, _ => by decide)
      (by decide),
   line_item_extraction_contract.2 cMac "s" "bot" cGoodReq emptyDb 0
      [("formid", "90"), ("amount", "690")] "90" 690
      rfl rfl (by decide) (by decide) (by decide) (by decide)⟩

/-- C9 counterexample: with street `"ул. Ленина"` and an empty building
field, the assembled address still carries the building fragment `"д. "`
(the f-string prefix makes the part non-empty even though the component is
empty), instead of being just the street. -/
theorem assembled_address_keeps_empty_building :
    assembleAddress [("street", "ул. Ленина")] = "ул. Ленина, д. "
    ∧ "ул. Ленина, д. " ≠ "ул. Ленина" := by
  refine ⟨?_, ?_⟩ <;> decide

/-- C9 (amended): the stored address is the `", "`-join of the street (only
when non-empty), the building part — which is always present as the prefix
`"д. "` followed by the possibly-empty home value — and the unit (only when
the apartment field is present and non-empty); and the handler stores
exactly this string on the created order. -/
theorem address_assembly_parts :
    (∀ fd : FormData,
      assembleAddress fd =
        (if (fdGetD fd "street" "").data.isEmpty then ""
         else fdGetD fd "street" "" ++ ", ")
        ++ ("д. " ++ fdGetD fd "home" "")
        ++ (match fdGet fd "apartment" with
            | some ap => if ap.data.isEmpty then "" else ", " ++ ("кв. " ++ ap)
            | none => ""))
    ∧ (∀ (mac : String → String → String) (secret bot : String) (req : Request)
        (db : Db) (seed : Nat) (fd : FormData) (ext : String) (amt : ℚ),
        req.signature = mac secret req.body → req.form = some fd →
        fdGet fd "formid" = some ext → ext ≠ "" →
        findOrderByExternalId db ext = none → parseAmount fd = some amt →
        ∃ o ∈ (handle_tilda_webhook mac secret bot req db seed).db.orders,
          o.external_order_id = ext ∧ o.address = assembleAddress fd) := by
  constructor
  · intro fd
    have hbld : (("д. " ++ fdGetD fd "home" "").data.isEmpty) = false := by
      rw [String.data_append]
      rfl
    unfold assembleAddress
    rcases hap : fdGet fd "apartment" with _ | ap
    · cases hs : (fdGetD fd "street" "").data.isEmpty with
      | false =>
        simp only [List.filter, hs, hbld, Bool.not_false, Bool.not_true]
        show String.intercalate ", " [_, _] = _
        rw [String.intercalate]
        show (fdGetD fd "street" "" ++ ", " ++ ("д. " ++ fdGetD fd "home" "")) = _
        simp
      | true =>
        simp only [List.filter, hs, hbld, Bool.not_false, Bool.not_true]
        show String.intercalate ", " [_] = _
        rw [String.intercalate]
        show ("д. " ++ fdGetD fd "home" "") = _
        simp
    · cases ha : ap.data.isEmpty with
      | false =>
        cases hs : (fdGetD fd "street" "").data.isEmpty with
        | false =>
          simp only [List.filter_append, List.filter, hs, hbld, ha,
            Bool.not_false, Bool.not_true]
          show String.intercalate ", " [_, _, _] = _
          rw [String.intercalate]
          show (fdGetD fd "street" "" ++ ", " ++ ("д. " ++ fdGetD fd "home" "")
                  ++ ", " ++ ("кв. " ++ ap)) = _
          simp [String.append_assoc]
        | true =>
          simp only [List.filter_append, List.filter, hs, hbld, ha,
            Bool.not_false, Bool.not_true]
          show String.intercalate ", " [_, _] = _
          rw [String.intercalate]
          show ("д. " ++ fdGetD fd "home" "" ++ ", " ++ ("кв. " ++ ap)) = _
          simp [String.append_assoc]
      | true =>
        cases hs : (fdGetD fd "street" "").data.isEmpty with
        | false =>
          simp only [List.filter_append, List.filter, hs, hbld, ha,
            Bool.not_false, Bool.not_true]
          show String.intercalate ", " [_, _] = _
          rw [String.intercalate]
          show (fdGetD fd "street" "" ++ ", " ++ ("д. " ++ fdGetD fd "home" "")) = _
          simp
        | true =>
          simp only [List.filter_append, List.filter, hs, hbld, ha,
            Bool.not_false, Bool.not_true]
          show String.intercalate ", " [_] = _
          rw [String.intercalate]
          show ("д. " ++ fdGetD fd "home" "") = _
          simp
  · intro mac secret bot req db seed fd ext amt hsig hform hfid hne hdup hamt
    rw [handle_tilda_webhook_success mac secret bot req db seed fd ext amt
      hsig hform hfid hne hdup hamt]
    refine ⟨webhookOrder fd ext
      (get_or_create_by_phone_run db (fdGetD fd "phone" "")
        (fdGetD fd "name" "Guest") (fdGetD fd "email" "") seed).2 amt, ?_, rfl, rfl⟩
    exact List.mem_append_right _ (List.mem_singleton.mpr rfl)

/-- Witness for `address_assembly_parts`: the full street/home/apartment
form and a created order carrying the assembled address. -/
theorem address_assembly_parts_witness :
    assembleAddress [("street", "ул. Ленина"), ("home", "10"), ("apartment", "4")]
      = (if (fdGetD [("street", "ул. Ленина"), ("home", "10"), ("apartment", "4")] "street" "").data.isEmpty
         then ""
         else fdGetD [("street", "ул. Ленина"), ("home", "10"), ("apartment", "4")] "street" "" ++ ", ")
        ++ ("д. " ++ fdGetD [("street", "ул. Ленина"), ("home", "10"), ("apartment", "4")] "home" "")
        ++ (match fdGet [("street", "ул. Ленина"), ("home", "10"), ("apartment", "4")] "apartment" with
            | some ap => if ap.data.isEmpty then "" else ", " ++ ("кв. " ++ ap)
            | none => "")
    ∧ ∃ o ∈ (handle_tilda_webhook cMac "s" "bot" cGoodReq emptyDb 0).db.orders,
        o.external_order_id = "90"
          ∧ o.address = assembleAddress [("formid", "90"), ("amount", "690")] :=
  ⟨address_assembly_parts.1 [("street", "ул. Ленина"), ("home", "10"), ("apartment", "4")],
   address_assembly_parts.2 cMac "s" "bot" cGoodReq emptyDb 0
     [("formid", "90"), ("amount", "690")] "90" 690
     rfl rfl (by decide) (by decide) (by decide) (by decide)⟩

/-- Python `str.split()` with no separator: split on whitespace runs,
producing no empty tokens (the accumulator collects the current token in
reverse). -/
def splitWsAux : List Char → List Char → List (List Char)
  | [], acc => if acc.isEmpty then [] else [acc.reverse]
  | c :: cs, acc =>
    if c.isWhitespace then
      if acc.isEmpty then splitWsAux cs [] else acc.reverse :: splitWsAux cs []
    else splitWsAux cs (c :: acc)

/-- Python `message.text.split()` as used by `cmd_start`. -/
def pySplit (s : String) : List String :=
  (splitWsAux s.data []).map List.asString

/-- The deep-link binding in `cmd_start` of `app/bot/handlers/client.py`:
`args = message.text.split()` followed by
`order_external_id = args if len(args) > 1 else None` — the code binds the
WHOLE token list (not `args[1]`, and without stripping the `order_` prefix)
whenever the message has an argument. -/
def cmdStartArg (text : String) : Option (List String) :=
  let args := pySplit text
  if args.length > 1 then some args else none

/-- C5: opening the deep link generated for external id `"2067628905"`
sends `/start order_2067628905`, and the handler's parse of that text does
not recover the external id: it binds the whole token list
`["/start", "order_2067628905"]`, none of whose elements (nor anything the
subsequent `get_by_external_id` lookup could match) equals `"2067628905"` —
the `order_` prefix embedded by the webhook is never stripped. -/
theorem cmd_start_does_not_recover_external_id :
    deepLinkFor "changcafe_bot" "2067628905"
      = "https://t.me/changcafe_bot?start=order_2067628905"
    ∧ cmdStartArg "/start order_2067628905"
      = some ["/start", "order_2067628905"]
    ∧ ("/start" ≠ "2067628905" ∧ "order_2067628905" ≠ "2067628905")
    ∧ findOrderByExternalId
        (Db.mk [] [{ id := 1, external_order_id := "2067628905" }])
        "order_2067628905" = none := by
  refine ⟨?_, ?_, ⟨?_, ?_⟩, ?_⟩ <;> decide

/-- C6: `UserService.get_or_create_by_phone` returns the row found by the
first lookup when there is one; when the insert raises the phone-uniqueness
`IntegrityError`, the single `except` block catches it, re-looks the phone
up and returns the now-existing row without re-raising; and if that
re-lookup finds nothing, the bare `raise` surfaces the failure to the
caller. -/
theorem get_or_create_by_phone_race_contract
    (insert : InsertOutcome) (secondLookup : Option User) (u newUser : User) :
    (∀ fl, fl = some u →
        get_or_create_by_phone fl insert secondLookup newUser = .ok u)
    ∧ (secondLookup = some u →
        get_or_create_by_phone none .uniqueViolation secondLookup newUser = .ok u)
    ∧ (secondLookup = none →
        get_or_create_by_phone none .uniqueViolation secondLookup newUser
          = .error .integrityError) := by
  refine ⟨?_, ?_, ?_⟩
  · intro fl hfl
    rw [hfl]
    rfl
  · intro hsl
    rw [hsl]
    rfl
  · intro hsl
    rw [hsl]
    rfl

/-- A concrete user row for the race witnesses. -/
def exRaceUser : User := { user_id := 77, phone := some "+79991234567" }

/-- Witness for `get_or_create_by_phone_race_contract` at concrete lookup
results. -/
theorem get_or_create_by_phone_race_contract_witness :
    (get_or_create_by_phone (some exRaceUser) .inserted none exRaceUser = .ok exRaceUser)
    ∧ (get_or_create_by_phone none .uniqueViolation (some exRaceUser) exRaceUser
        = .ok exRaceUser)
    ∧ (get_or_create_by_phone none .uniqueViolation none exRaceUser
        = .error .integrityError) :=
  ⟨(get_or_create_by_phone_race_contract .inserted none exRaceUser exRaceUser).1
      (some exRaceUser) rfl,
   (get_or_create_by_phone_race_contract .uniqueViolation (some exRaceUser)
      exRaceUser exRaceUser).2.1 rfl,
   (get_or_create_by_phone_race_contract .uniqueViolation none
      exRaceUser exRaceUser).2.2 rfl⟩

/-- What the client sees from `receive_phone_confirmation`: the "number too
short" reply, or the blanket `except` branch replying with the exception
text. -/
inductive PhoneConfirmOutcome where
  | rejectedTooShort
  | errorReply (detail : String)
deriving DecidableEq, Repr

/-- `receive_phone_confirmation` of `app/bot/handlers/client.py`: strip the
input to its digits and reject anything shorter than 10; otherwise look the
sender up, and call `user_repo.update(...)` — a method `UserRepository` does
not define — or, when the sender is unknown, `order_repo.update(...)` — a
method `OrderRepository` does not define either (and when the order is also
missing, `show_order_to_client` dereferences `None`).  Each of these raises
`AttributeError` before any store write, so the blanket `except` replies
with the error text and the store is returned unchanged. -/
def receive_phone_confirmation (db : Db) (fromUserId orderId : Nat)
    (phoneInput : String) : Db × PhoneConfirmOutcome :=
  let phoneClean := phoneInput.data.filter Char.isDigit
  if phoneClean.length < 10 then (db, .rejectedTooShort)
  else
    match findUserById db fromUserId with
    | some _ => (db, .errorReply "UserRepository object has no attribute update")
    | none =>
      match findOrderById db orderId with
      | some _ => (db, .errorReply "OrderRepository object has no attribute update")
      | none => (db, .errorReply "NoneType object has no attribute external_order_id")

/-- The order awaiting phone confirmation in the C8 scenario. -/
def exAwaitingOrder : Order :=
  { id := 7, external_order_id := "2067628905", status := .AWAITING_CONFIRMATION }

/-- A store with the awaiting order and the confirming Telegram user. -/
def exAwaitingDb : Db :=
  Db.mk [{ user_id := 555, first_name := "Иван" }] [exAwaitingOrder]

/-- C8: a syntactically valid phone (11 digits after stripping) does not
move the awaiting order to WAITING_OPERATOR — the handler's calls to the
nonexistent `update` repository methods raise `AttributeError`, the blanket
handler replies with the error text, and the order keeps its status and has
no confirmed phone recorded; only the under-10-digit rejection behaves as
the claim describes. -/
theorem phone_confirmation_crashes_not_transitions :
    receive_phone_confirmation exAwaitingDb 555 7 "+7 (999) 123-45-67"
      = (exAwaitingDb, .errorReply "UserRepository object has no attribute update")
    ∧ (findOrderById exAwaitingDb 7).map Order.status
        = some .AWAITING_CONFIRMATION
    ∧ (findOrderById exAwaitingDb 7).map Order.confirmed_phone = some none
    ∧ OrderStatus.AWAITING_CONFIRMATION ≠ OrderStatus.WAITING_OPERATOR
    ∧ receive_phone_confirmation exAwaitingDb 555 7 "+7 (999) 123"
      = (exAwaitingDb, .rejectedTooShort) := by
  refine ⟨?_, ?_, ?_, ?_, ?_⟩ <;> decide

/-- C10: when no user row carries the phone, the execution of
`UserService.get_or_create_by_phone` with randomness `seed` appends to the
users table a row whose primary key — the same `user_id` column that stores
Telegram chat identities — is `random.randint(10000000, 99999999)`, an
8-digit value inside `[10000000, 99999999]` that varies with the draw (two
runs with different draws produce different ids, shown by the final
closed conjunct). -/
theorem webhook_user_gets_random_telegram_id (db : Db)
    (phone name email : String) (seed : Nat)
    (hmiss : findUserByPhone db phone = none) :
    ((get_or_create_by_phone_run db phone name email seed).1.user_id
        = randint 10000000 99999999 seed
      ∧ 10000000 ≤ (get_or_create_by_phone_run db phone name email seed).1.user_id
      ∧ (get_or_create_by_phone_run db phone name email seed).1.user_id ≤ 99999999
      ∧ (get_or_create_by_phone_run db phone name email seed).2.users
          = db.users ++ [(get_or_create_by_phone_run db phone name email seed).1])
    ∧ randint 10000000 99999999 0 ≠ randint 10000000 99999999 1 := by
  have hrun : get_or_create_by_phone_run db phone name email seed
      = (newUserFromPhone phone name email seed,
         Db.mk (db.users ++ [newUserFromPhone phone name email seed]) db.orders) := by
    unfold get_or_create_by_phone_run
    rw [hmiss]
  refine ⟨⟨?_, ?_, ?_, ?_⟩, by decide⟩
  · rw [hrun]
    rfl
  · rw [hrun]
    show 10000000 ≤ 10000000 + seed % (99999999 + 1 - 10000000)
    omega
  · rw [hrun]
    show 10000000 + seed % (99999999 + 1 - 10000000) ≤ 99999999
    have : seed % 90000000 < 90000000 := Nat.mod_lt seed (by omega)
    omega
  · rw [hrun]

/-- Witness for `webhook_user_gets_random_telegram_id` at the empty store
and draw 42. -/
theorem webhook_user_gets_random_telegram_id_witness :
    ((get_or_create_by_phone_run emptyDb "+79991234567" "Иван" "" 42).1.user_id
        = randint 10000000 99999999 42
      ∧ 10000000 ≤ (get_or_create_by_phone_run emptyDb "+79991234567" "Иван" "" 42).1.user_id
      ∧ (get_or_create_by_phone_run emptyDb "+79991234567" "Иван" "" 42).1.user_id ≤ 99999999
      ∧ (get_or_create_by_phone_run emptyDb "+79991234567" "Иван" "" 42).2.users
          = emptyDb.users ++ [(get_or_create_by_phone_run emptyDb "+79991234567" "Иван" "" 42).1])
    ∧ randint 10000000 99999999 0 ≠ randint 10000000 99999999 1 :=
  webhook_user_gets_random_telegram_id emptyDb "+79991234567" "Иван" "" 42 rfl
